import Mathlib

/-!
Verification of the gesu-bridge frontend (a TypeScript/React + Tauri
application).  The TypeScript sources under `src/` are embedded shallowly:
pure functions become Lean functions, JavaScript runtime values are an
explicit inductive universe, and React rendering decisions become functions
from component state to a small view type.  The Rust backend (session
registry, transfer queue, progress reporter) is not part of this repository;
where a property depends on it, the backend behaviour is modelled from the
specification and the definition says so in its doc comment.
-/

namespace GesuBridge

/-! ## JavaScript value universe

`parseError` in `src/api/bridge.ts` takes an `unknown` value.  We model the
JavaScript values it can observe: `null`, `undefined`, booleans, numbers
(integers suffice for the properties at stake), strings, and objects.  An
object carries its own enumerable fields plus a flag recording whether it is
an `Error` instance (`instanceof Error`). -/

inductive JSValue where
  | vNull
  | vUndefined
  | vBool (b : Bool)
  | vNum (n : Int)
  | vStr (s : String)
  | vObj (fields : List (String × JSValue)) (isErrorInstance : Bool)
deriving Repr

/-- Property access `obj.k`: first field with name `k`, if any. -/
def getField (fields : List (String × JSValue)) (k : String) : Option JSValue :=
  (fields.find? (fun p => p.1 == k)).map (fun p => p.2)

/-- Escaping performed by `JSON.stringify` on string content (quotes and
backslashes; control characters do not occur in the values we consider). -/
def jsonEscape (s : String) : String :=
  s.foldl
    (fun acc c =>
      if c = '"' then acc ++ "\\\""
      else if c = '\\' then acc ++ "\\\\"
      else acc.push c)
    ""

mutual

/-- `JSON.stringify` on a JavaScript value; `none` corresponds to the
`undefined` result (undefined-valued fields are omitted from objects). -/
def jsonStringifyVal : JSValue → Option String
  | .vNull => some "null"
  | .vUndefined => none
  | .vBool b => some (if b then "true" else "false")
  | .vNum n => some (toString n)
  | .vStr s => some ("\"" ++ jsonEscape s ++ "\"")
  | .vObj fields _ =>
      some ("\x7b" ++ String.intercalate "," (jsonStringifyFields fields) ++ "\x7d")

/-- The serialised `"key":value` entries of an object, omitting fields whose
value serialises to `undefined`. -/
def jsonStringifyFields : List (String × JSValue) → List String
  | [] => []
  | (k, v) :: rest =>
      match jsonStringifyVal v with
      | some sv => ("\"" ++ jsonEscape k ++ "\":" ++ sv) :: jsonStringifyFields rest
      | none => jsonStringifyFields rest

end

/-- The `String(x)` conversion.  For plain objects this is
`"[object Object]"`; `parseError` only reaches the object case for objects
that are not `Error` instances. -/
def jsToString : JSValue → String
  | .vNull => "null"
  | .vUndefined => "undefined"
  | .vBool b => if b then "true" else "false"
  | .vNum n => toString n
  | .vStr s => s
  | .vObj _ _ => "[object Object]"

/-- `parseError` from `src/api/bridge.ts`.  The result is the JavaScript
value the function returns: Lean totality of this definition is the
never-throws part of the contract.  The only branch that can return a
non-string is the `instanceof Error` branch, which returns the raw
`err.message` property (`undefined` when absent), exactly as the source
does. -/
def parseError (err : JSValue) : JSValue :=
  match err with
  | .vNull => .vStr "Unknown error"
  | .vUndefined => .vStr "Unknown error"
  | .vObj fields isErr =>
      match getField fields "message" with
      | some (.vStr m) => .vStr m
      | _ =>
          match getField fields "type" with
          | some (.vStr t) =>
              .vStr (t ++ ": " ++ ((jsonStringifyVal (.vObj fields isErr)).getD "undefined"))
          | _ =>
              if isErr then (getField fields "message").getD .vUndefined
              else .vStr (jsToString (.vObj fields isErr))
  | .vStr s => .vStr (jsToString (.vStr s))
  | .vBool b => .vStr (jsToString (.vBool b))
  | .vNum n => .vStr (jsToString (.vNum n))

end GesuBridge

namespace GesuBridge

/-- Claim C5: every error surfaced to the caller is mapped to a
human-readable message.  `parseError` is total (never throws); on `null` and
`undefined` it returns the string `"Unknown error"`; on any object whose
`message` field is a string it returns exactly that field; on a plain string
it returns the string itself; and on every value of the shapes the contract
enumerates (AppError-shaped objects, standard errors with a string message,
strings, null, undefined) the result is a string. -/
theorem parseError_maps_errors (v : JSValue) (fields : List (String × JSValue))
    (isErr : Bool) (m : String)
    (hm : getField fields "message" = some (.vStr m)) :
    parseError JSValue.vNull = .vStr "Unknown error" ∧
    parseError JSValue.vUndefined = .vStr "Unknown error" ∧
    parseError (JSValue.vObj fields isErr) = .vStr m ∧
    (∀ s : String, parseError (.vStr s) = .vStr s) ∧
    ∃ out : JSValue, parseError v = out := by
  refine ⟨rfl, rfl, ?_, fun s => rfl, ⟨parseError v, rfl⟩⟩
  simp only [parseError, hm]

/-! ## Devices and the bridge command surface

Types from `src/api/bridge.ts` and the typed `invoke` wrappers.  Each
wrapper is embedded as the `InvokeCall` it produces: a command-name string
and a structured argument record.  The TypeScript string-literal union
types (`CameraFacing`, `CameraResolution`, orientation, `MediaFilter`) are
carried as strings, as on the wire. -/

inductive DeviceState where
  | ready
  | unauthorized
  | offline
  | unknown
deriving DecidableEq, Repr

structure Device where
  serial : String
  state : DeviceState
  model : Option String
  manufacturer : Option String
  android_version : Option String
deriving DecidableEq, Repr

/-- A structured argument value sent through `invoke`. -/
inductive ArgVal where
  | str (v : String)
  | optStr (v : Option String)
  | boolean (v : Bool)
  | strList (v : List String)
deriving DecidableEq, Repr

/-- One call to Tauri `invoke`: the command name and the argument record. -/
structure InvokeCall where
  cmd : String
  args : List (String × ArgVal)
deriving DecidableEq, Repr

namespace Bridge

def ping : InvokeCall := ⟨"ping", []⟩

def getSettings : InvokeCall := ⟨"get_settings", []⟩

def setAdbPath (path : Option String) : InvokeCall :=
  ⟨"set_adb_path", [("path", .optStr path)]⟩

def detectAdb : InvokeCall := ⟨"detect_adb", []⟩

def setScrcpyPath (path : Option String) : InvokeCall :=
  ⟨"set_scrcpy_path", [("path", .optStr path)]⟩

def detectScrcpy : InvokeCall := ⟨"detect_scrcpy", []⟩

def setFfmpegPath (path : Option String) : InvokeCall :=
  ⟨"set_ffmpeg_path", [("path", .optStr path)]⟩

def detectFfmpeg : InvokeCall := ⟨"detect_ffmpeg", []⟩

def listDevices : InvokeCall := ⟨"list_devices", []⟩

def startMirror (serial : String) (screenOff : Bool) : InvokeCall :=
  ⟨"start_mirror", [("serial", .str serial), ("screenOff", .boolean screenOff)]⟩

def stopMirror (serial : String) : InvokeCall :=
  ⟨"stop_mirror", [("serial", .str serial)]⟩

def getMirrorSessions : InvokeCall := ⟨"get_mirror_sessions", []⟩

def startCamera (serial facing resolution : String) (noAudio : Bool)
    (orientation : String) : InvokeCall :=
  ⟨"start_camera",
   [("serial", .str serial), ("facing", .str facing),
    ("resolution", .str resolution), ("noAudio", .boolean noAudio),
    ("orientation", .str orientation)]⟩

def stopCamera (serial : String) : InvokeCall :=
  ⟨"stop_camera", [("serial", .str serial)]⟩

def getCameraSessions : InvokeCall := ⟨"get_camera_sessions", []⟩

def pushFiles (serial : String) (paths : List String) (dest : Option String) :
    InvokeCall :=
  ⟨"push_files",
   [("serial", .str serial), ("paths", .strList paths), ("dest", .optStr dest)]⟩

def getTransfers : InvokeCall := ⟨"get_transfers", []⟩

def cancelTransfer (id : String) : InvokeCall :=
  ⟨"cancel_transfer", [("id", .str id)]⟩

def openBluetoothSettings : InvokeCall := ⟨"open_bluetooth_settings", []⟩

def openBluetoothSend : InvokeCall := ⟨"open_bluetooth_send", []⟩

def openBluetoothReceive : InvokeCall := ⟨"open_bluetooth_receive", []⟩

def getDefaultMediaRoot (serial : String) : InvokeCall :=
  ⟨"get_default_media_root", [("serial", .str serial)]⟩

def listDeviceFolders (serial : String) (path : Option String) : InvokeCall :=
  ⟨"list_device_folders", [("serial", .str serial), ("path", .optStr path)]⟩

def listDeviceMedia (serial : String) (path : String) (filter : Option String) :
    InvokeCall :=
  ⟨"list_device_media",
   [("serial", .str serial), ("path", .str path), ("filter", .optStr filter)]⟩

def getMediaThumbnail (serial : String) (path : String) : InvokeCall :=
  ⟨"get_media_thumbnail", [("serial", .str serial), ("path", .str path)]⟩

def pullMediaFiles (serial : String) (paths : List String) (dest : Option String) :
    InvokeCall :=
  ⟨"pull_media_files",
   [("serial", .str serial), ("paths", .strList paths), ("dest", .optStr dest)]⟩

def previewMedia (serial : String) (path : String) : InvokeCall :=
  ⟨"preview_media", [("serial", .str serial), ("path", .str path)]⟩

def openMediaFolder (path : String) : InvokeCall :=
  ⟨"open_media_folder", [("path", .str path)]⟩

def greet (name : String) : InvokeCall := ⟨"greet", [("name", .str name)]⟩

end Bridge

/-! ## Ready-device filtering (C7)

`TransferPage.loadInitial`, `MirrorPage.loadInitial` and the
`MediaPreviewerPage` device selector each restrict the offered target
devices with the same filter on the device state. -/

namespace TransferPage

/-- `devicesResult.filter(d => d.state === "ready")` in
`TransferPage.loadInitial`. -/
def readyDevices (devicesResult : List Device) : List Device :=
  devicesResult.filter (fun d => d.state == DeviceState.ready)

end TransferPage

namespace MirrorPage

/-- `devicesResult.filter(d => d.state === "ready")` in
`MirrorPage.loadInitial`. -/
def readyDevices (devicesResult : List Device) : List Device :=
  devicesResult.filter (fun d => d.state == DeviceState.ready)

end MirrorPage

namespace MediaPreviewerPage

/-- `devices.filter((d) => d.state === "ready")` feeding the device
selector options in `MediaPreviewerPage`. -/
def selectorDevices (devices : List Device) : List Device :=
  devices.filter (fun d => d.state == DeviceState.ready)

end MediaPreviewerPage

/-! ## Media transfer results (C10) -/

structure MediaTransferResult where
  source_path : String
  dest_path : Option String
  success : Bool
  error : Option String
  size_bytes : Nat
deriving DecidableEq, Repr

namespace TransferProgress

/-- `results.filter((r) => r.success).length` in `TransferProgress`. -/
def successfulCount (results : List MediaTransferResult) : Nat :=
  (results.filter (fun r => r.success)).length

/-- `results.filter((r) => !r.success).length` in `TransferProgress`. -/
def failedCount (results : List MediaTransferResult) : Nat :=
  (results.filter (fun r => !r.success)).length

/-- `results.length` in `TransferProgress`. -/
def totalCount (results : List MediaTransferResult) : Nat :=
  results.length

end TransferProgress

/-- Claim C6: no caller-supplied string ever determines the command being
executed.  For every exported bridge function and all argument assignments,
the command name passed to `invoke` is the same fixed literal; caller inputs
appear only in the structured argument record. -/
theorem invoke_commands_fixed :
    Bridge.ping.cmd = "ping" ∧
    Bridge.getSettings.cmd = "get_settings" ∧
    (∀ p, (Bridge.setAdbPath p).cmd = "set_adb_path") ∧
    Bridge.detectAdb.cmd = "detect_adb" ∧
    (∀ p, (Bridge.setScrcpyPath p).cmd = "set_scrcpy_path") ∧
    Bridge.detectScrcpy.cmd = "detect_scrcpy" ∧
    (∀ p, (Bridge.setFfmpegPath p).cmd = "set_ffmpeg_path") ∧
    Bridge.detectFfmpeg.cmd = "detect_ffmpeg" ∧
    Bridge.listDevices.cmd = "list_devices" ∧
    (∀ s off, (Bridge.startMirror s off).cmd = "start_mirror") ∧
    (∀ s, (Bridge.stopMirror s).cmd = "stop_mirror") ∧
    Bridge.getMirrorSessions.cmd = "get_mirror_sessions" ∧
    (∀ s f r a o, (Bridge.startCamera s f r a o).cmd = "start_camera") ∧
    (∀ s, (Bridge.stopCamera s).cmd = "stop_camera") ∧
    Bridge.getCameraSessions.cmd = "get_camera_sessions" ∧
    (∀ s p d, (Bridge.pushFiles s p d).cmd = "push_files") ∧
    Bridge.getTransfers.cmd = "get_transfers" ∧
    (∀ i, (Bridge.cancelTransfer i).cmd = "cancel_transfer") ∧
    Bridge.openBluetoothSettings.cmd = "open_bluetooth_settings" ∧
    Bridge.openBluetoothSend.cmd = "open_bluetooth_send" ∧
    Bridge.openBluetoothReceive.cmd = "open_bluetooth_receive" ∧
    (∀ s, (Bridge.getDefaultMediaRoot s).cmd = "get_default_media_root") ∧
    (∀ s p, (Bridge.listDeviceFolders s p).cmd = "list_device_folders") ∧
    (∀ s p f, (Bridge.listDeviceMedia s p f).cmd = "list_device_media") ∧
    (∀ s p, (Bridge.getMediaThumbnail s p).cmd = "get_media_thumbnail") ∧
    (∀ s p d, (Bridge.pullMediaFiles s p d).cmd = "pull_media_files") ∧
    (∀ s p, (Bridge.previewMedia s p).cmd = "preview_media") ∧
    (∀ p, (Bridge.openMediaFolder p).cmd = "open_media_folder") ∧
    (∀ n, (Bridge.greet n).cmd = "greet") := by
  refine ⟨rfl, rfl, fun _ => rfl, rfl, fun _ => rfl, rfl, fun _ => rfl, rfl, rfl,
    fun _ _ => rfl, fun _ => rfl, rfl, fun _ _ _ _ _ => rfl, fun _ => rfl, rfl,
    fun _ _ _ => rfl, rfl, fun _ => rfl, rfl, rfl, rfl, fun _ => rfl,
    fun _ _ => rfl, fun _ _ _ => rfl, fun _ _ => rfl, fun _ _ _ => rfl,
    fun _ _ => rfl, fun _ => rfl, fun _ => rfl⟩

/-- Claim C7: requests are only offered for ready devices.  At each of the
three sites that build the selectable target list, a device is in the
offered list exactly when it is in the enumerated list and its state is
`ready`. -/
theorem start_targets_are_ready (ds : List Device) (d : Device) :
    (d ∈ TransferPage.readyDevices ds ↔ d ∈ ds ∧ d.state = DeviceState.ready) ∧
    (d ∈ MirrorPage.readyDevices ds ↔ d ∈ ds ∧ d.state = DeviceState.ready) ∧
    (d ∈ MediaPreviewerPage.selectorDevices ds ↔
      d ∈ ds ∧ d.state = DeviceState.ready) := by
  simp [TransferPage.readyDevices, MirrorPage.readyDevices,
    MediaPreviewerPage.selectorDevices, List.mem_filter]

/-- Claim C10: the transfer-result summary partitions the batch exactly:
successful count plus failed count equals the total number of results. -/
theorem transfer_summary_partitions (results : List MediaTransferResult) :
    TransferProgress.successfulCount results + TransferProgress.failedCount results
      = TransferProgress.totalCount results := by
  induction results with
  | nil => rfl
  | cons r rs ih =>
      simp only [TransferProgress.successfulCount, TransferProgress.failedCount,
        TransferProgress.totalCount, List.filter, List.length_cons] at *
      cases hr : r.success <;> simp [hr] <;> omega

/-! ## Byte-size formatting (C8)

`formatSize` appears verbatim in `MediaPreview.tsx`, `MediaGrid.tsx` and
`TransferProgress.tsx`; `formatBytes` in `TransferPage.tsx` has the same
body.  `Math.floor(Math.log(bytes) / Math.log(1024))` is the integer
base-1024 logarithm of `bytes`; `x.toFixed(1)` rounds to one decimal and
`parseFloat` drops a trailing `.0`; indexing `sizes[i]` past the end of the
four-entry table yields `undefined`, which string concatenation renders as
`"undefined"`. -/

/-- The number `t / 10` printed the way JavaScript prints
`parseFloat(x.toFixed(1))`: an integer when the tenths digit is zero,
otherwise one decimal place. -/
def showTenths (t : Nat) : String :=
  if t % 10 == 0 then toString (t / 10)
  else toString (t / 10) ++ "." ++ toString (t % 10)

/-- `(bytes / den).toFixed(1)` as an exact count of tenths:
`⌊bytes / den * 10 + 1 / 2⌋`. -/
def roundTenths (bytes den : Nat) : Nat :=
  (bytes * 20 + den) / (2 * den)

namespace MediaPreview

/-- The unit table `["B", "KB", "MB", "GB"]`. -/
def sizes : List String := ["B", "KB", "MB", "GB"]

/-- `formatSize` from `MediaPreview.tsx`. -/
def formatSize (bytes : Nat) : String :=
  if bytes == 0 then "0 B"
  else
    showTenths (roundTenths bytes (1024 ^ Nat.log 1024 bytes)) ++ " " ++
      sizes.getD (Nat.log 1024 bytes) "undefined"

end MediaPreview

namespace TransferPage

/-- `formatBytes` from `TransferPage.tsx`; its body is identical to
`formatSize`. -/
def formatBytes (bytes : Nat) : String :=
  if bytes == 0 then "0 B"
  else
    showTenths (roundTenths bytes (1024 ^ Nat.log 1024 bytes)) ++ " " ++
      MediaPreview.sizes.getD (Nat.log 1024 bytes) "undefined"

end TransferPage

/-- Claim C8: the byte-size formatters are correct only below
`1024 ^ 4`.  `formatSize 0 = "0 B"`; for `1 ≤ bytes < 1024 ^ 4` the unit
index stays inside the four-entry table and the output is the value divided
by `1024 ^ ⌊log₁₀₂₄ bytes⌋` rounded to one decimal followed by a unit drawn
from the table; for an input of `1024 ^ 4` and beyond the unit lookup falls
outside the table; and `formatBytes` agrees with `formatSize`
everywhere. -/
theorem format_size_units (bytes : Nat) (h1 : 1 ≤ bytes)
    (h2 : bytes < 1024 ^ 4) :
    MediaPreview.formatSize 0 = "0 B" ∧
    (∃ u, MediaPreview.sizes.get? (Nat.log 1024 bytes) = some u ∧
      u ∈ ["B", "KB", "MB", "GB"] ∧
      MediaPreview.formatSize bytes =
        showTenths (roundTenths bytes (1024 ^ Nat.log 1024 bytes)) ++ " " ++ u) ∧
    (∃ b, 1024 ^ 4 ≤ b ∧ MediaPreview.sizes.get? (Nat.log 1024 b) = none) ∧
    (∀ n, TransferPage.formatBytes n = MediaPreview.formatSize n) := by
  have hne : bytes ≠ 0 := by omega
  have hlog : Nat.log 1024 bytes < 4 := Nat.log_lt_of_lt_pow hne h2
  have hfmt : MediaPreview.formatSize bytes =
      showTenths (roundTenths bytes (1024 ^ Nat.log 1024 bytes)) ++ " " ++
        MediaPreview.sizes.getD (Nat.log 1024 bytes) "undefined" := by
    rw [MediaPreview.formatSize, if_neg (by simpa using hne)]
  refine ⟨rfl, ?_, ⟨1024 ^ 4, le_refl _, ?_⟩, fun n => rfl⟩
  · obtain ⟨i, hi⟩ : ∃ i, Nat.log 1024 bytes = i := ⟨_, rfl⟩
    rw [hi] at hlog hfmt ⊢
    interval_cases i
    · exact ⟨"B", rfl, by decide, hfmt⟩
    · exact ⟨"KB", rfl, by decide, hfmt⟩
    · exact ⟨"MB", rfl, by decide, hfmt⟩
    · exact ⟨"GB", rfl, by decide, hfmt⟩
  · rw [Nat.log_pow (by norm_num)]
    rfl

/-- Witness for C8 at `bytes = 1536` (`1.5 KB`). -/
theorem format_size_units_witness :
    1 ≤ 1536 ∧ 1536 < 1024 ^ 4 ∧
    (MediaPreview.formatSize 0 = "0 B" ∧
     (∃ u, MediaPreview.sizes.get? (Nat.log 1024 1536) = some u ∧
       u ∈ ["B", "KB", "MB", "GB"] ∧
       MediaPreview.formatSize 1536 =
         showTenths (roundTenths 1536 (1024 ^ Nat.log 1024 1536)) ++ " " ++ u) ∧
     (∃ b, 1024 ^ 4 ≤ b ∧ MediaPreview.sizes.get? (Nat.log 1024 b) = none) ∧
     (∀ n, TransferPage.formatBytes n = MediaPreview.formatSize n)) :=
  ⟨by norm_num, by norm_num,
   format_size_units 1536 (by norm_num) (by norm_num)⟩

/-! ## Folder navigation (C9) -/

structure FolderInfo where
  name : String
  path : String
  item_count : Option Nat
  is_media_folder : Bool
deriving DecidableEq, Repr

namespace MediaPreviewerPage

/-- `currentPath.split("/").filter(Boolean)`: the non-empty segments of the
path.  The split runs over the character list so that every step is plain
structural computation. -/
def pathParts (currentPath : String) : List String :=
  ((currentPath.toList.splitOn '/').map (fun cs => String.mk cs)).filter
    (fun s => s != "")

/-- `handleNavigateUp` from `MediaPreviewerPage.tsx`: when the path has more
than one non-empty segment, drop the last segment (`parts.pop()`) and rejoin
with a leading slash; otherwise leave the path as it is. -/
def handleNavigateUp (currentPath : String) : String :=
  if (pathParts currentPath).length > 1 then
    "/" ++ String.intercalate "/" (pathParts currentPath).dropLast
  else currentPath

end MediaPreviewerPage

namespace FolderBrowser

/-- Whether `FolderBrowser` renders the `..` (go-up) control.  The component
shows a spinner while loading and a `No subfolders` placeholder when the
folder list is empty; only in the remaining case is the go-up button
rendered, guarded by `currentPath !== "/sdcard"`. -/
def upControlShown (loading : Bool) (folders : List FolderInfo)
    (currentPath : String) : Bool :=
  !loading && !folders.isEmpty && currentPath != "/sdcard"

end FolderBrowser

/-- Counterexample to C9 as stated: with the folder list empty the `..`
control is hidden even though the current path `/sdcard/DCIM` is not
`/sdcard`, so "hidden exactly when the path is `/sdcard`" fails. -/
theorem navigate_up_hidden_counterexample :
    ¬ (FolderBrowser.upControlShown false [] "/sdcard/DCIM" = false ↔
        "/sdcard/DCIM" = "/sdcard") := by
  decide

/-- Claim C9 (amended): navigate-up never escapes the storage root.  For a
path with at least two non-empty segments `handleNavigateUp` replaces it by
`/` followed by all but the last segment; for a path with exactly one
segment the path is unchanged; the `..` control is always hidden at
`/sdcard`; and whenever the folder list is actually rendered (not loading,
at least one folder) the control is hidden exactly when the current path is
`/sdcard`. -/
theorem navigate_up_bounded (p q r : String) (loading : Bool)
    (f : FolderInfo) (fs : List FolderInfo)
    (h2 : 2 ≤ (MediaPreviewerPage.pathParts p).length)
    (h1 : (MediaPreviewerPage.pathParts q).length = 1) :
    MediaPreviewerPage.handleNavigateUp p =
      "/" ++ String.intercalate "/" (MediaPreviewerPage.pathParts p).dropLast ∧
    MediaPreviewerPage.handleNavigateUp q = q ∧
    FolderBrowser.upControlShown loading fs "/sdcard" = false ∧
    (FolderBrowser.upControlShown false (f :: fs) r = false ↔ r = "/sdcard") := by
  refine ⟨?_, ?_, ?_, ?_⟩
  · rw [MediaPreviewerPage.handleNavigateUp, if_pos (by omega)]
  · rw [MediaPreviewerPage.handleNavigateUp, if_neg (by omega)]
  · simp [FolderBrowser.upControlShown]
  · simp [FolderBrowser.upControlShown]

/-- Witness for C9 at `/sdcard/DCIM/Camera` (two-plus segments) and
`/sdcard` (single segment). -/
theorem navigate_up_bounded_witness :
    2 ≤ (MediaPreviewerPage.pathParts "/sdcard/DCIM/Camera").length ∧
    (MediaPreviewerPage.pathParts "/sdcard").length = 1 ∧
    (MediaPreviewerPage.handleNavigateUp "/sdcard/DCIM/Camera" =
       "/" ++ String.intercalate "/"
         (MediaPreviewerPage.pathParts "/sdcard/DCIM/Camera").dropLast ∧
     MediaPreviewerPage.handleNavigateUp "/sdcard" = "/sdcard" ∧
     FolderBrowser.upControlShown false [] "/sdcard" = false ∧
     (FolderBrowser.upControlShown false
        [⟨"DCIM", "/sdcard/DCIM", none, true⟩] "/sdcard/DCIM" = false ↔
        "/sdcard/DCIM" = "/sdcard")) :=
  ⟨by decide, by decide,
   navigate_up_bounded "/sdcard/DCIM/Camera" "/sdcard" "/sdcard/DCIM" false
     ⟨"DCIM", "/sdcard/DCIM", none, true⟩ [] (by decide) (by decide)⟩

/-! ## Sessions, the mirror page and the orchestration core (C1 – C4)

`MirrorSession`, `TransferStatus` and `TransferItem` come from
`src/api/bridge.ts`; the `MirrorPage` definitions come from the second page
component.  The Session Registry, Transfer Queue and Progress Reporter live
in the Rust backend, which is not part of this repository — the frontend
reaches them only through `invoke` — so the `Core` definitions are modelled
from the specification rather than translated from source. -/

structure MirrorSession where
  device_serial : String
  process_id : Nat
  started_at : String
deriving DecidableEq, Repr

/-- The `mode` state of `MirrorPage` (`'screen' | 'camera'`). -/
inductive MirrorMode where
  | screen
  | camera
deriving DecidableEq, Repr

/-- `TransferStatus` from `src/api/bridge.ts`; the specification uses the
same five states for a Transfer Job. -/
inductive TransferStatus where
  | queued
  | transferring
  | complete
  | failed
  | cancelled
deriving DecidableEq, Repr

/-- The terminal states `Complete | Failed | Cancelled`. -/
def TransferStatus.isTerminal : TransferStatus → Bool
  | .complete => true
  | .failed => true
  | .cancelled => true
  | .queued => false
  | .transferring => false

/-- `TransferItem` from `src/api/bridge.ts`. -/
structure TransferItem where
  id : String
  file_name : String
  source_path : String
  dest_path : String
  size_bytes : Nat
  transferred_bytes : Nat
  status : TransferStatus
  error : Option String
  started_at : String
deriving DecidableEq, Repr

namespace MirrorPage

/-- `isDeviceMirroring` from `MirrorPage`: whether the device has a session
in the list belonging to the current mode. -/
def isDeviceMirroring (mode : MirrorMode)
    (mirrorSessions cameraSessions : List MirrorSession)
    (serial : String) : Bool :=
  match mode with
  | .screen => mirrorSessions.any (fun s => s.device_serial == serial)
  | .camera => cameraSessions.any (fun s => s.device_serial == serial)

/-- The widget rendered at the end of a device row: either the `Active`
badge or a start button. -/
inductive DeviceControl where
  | activeBadge
  | startButton (label : String)
deriving DecidableEq, Repr

/-- The render decision in each device row of `MirrorPage`:
`isActive ? <Active badge> : <start button>`. -/
def deviceControl (mode : MirrorMode)
    (mirrorSessions cameraSessions : List MirrorSession) (d : Device)
    (isStarting : Bool) : DeviceControl :=
  if isDeviceMirroring mode mirrorSessions cameraSessions d.serial then
    .activeBadge
  else
    .startButton
      (if isStarting then "Starting..."
       else if mode == MirrorMode.screen then "Start Mirror"
       else "Start Camera")

end MirrorPage

namespace Core

inductive Mode where
  | mirror
  | camera
deriving DecidableEq, Repr

/-- The session key `(deviceId, mode)` of the specification. -/
structure SessionKey where
  deviceId : String
  mode : Mode
deriving DecidableEq, Repr

inductive SessionState where
  | starting
  | running
  | stopping
  | crashed
deriving DecidableEq, Repr

structure Session where
  key : SessionKey
  pid : Nat
  state : SessionState
deriving DecidableEq, Repr

abbrev Registry := List Session

/-- The error taxonomy kinds the claims exercise. -/
inductive CoreError where
  | duplicateSession
  | spawnFailed
  | sessionNotFound
deriving DecidableEq, Repr

def findSession (r : Registry) (k : SessionKey) : Option Session :=
  r.find? (fun s => s.key == k)

def countKey (r : Registry) (k : SessionKey) : Nat :=
  (r.filter (fun s => s.key == k)).length

/-- Modelled from the spec: `start` of the Session Registry (Rust backend,
absent from this repository).  It fails with `DuplicateSessionError` when a
session already exists for `(deviceId, mode)`, leaving the existing session
untouched; otherwise it spawns the process handle and on successful spawn
records the session as `Running`; a spawn failure leaves no entry and
surfaces `SpawnError`. -/
def startSession (r : Registry) (k : SessionKey) (pid : Nat)
    (spawnOk : Bool) : Except CoreError (Session × Registry) :=
  match findSession r k with
  | some _ => .error .duplicateSession
  | none =>
      if spawnOk then
        .ok (⟨k, pid, .running⟩, ⟨k, pid, .running⟩ :: r)
      else .error .spawnFailed

inductive Direction where
  | push
  | pull
deriving DecidableEq, Repr

/-- The Transfer Job of the specification; `size_bytes = 0` stands for an
unknown total size, matching the TypeScript `TransferItem`. -/
structure TransferJob where
  id : String
  direction : Direction
  device : String
  source : String
  dest : String
  size_bytes : Nat
  transferred_bytes : Nat
  status : TransferStatus
  error : Option String
deriving DecidableEq, Repr

/-- Modelled from the spec: the effect of `cancel` on a single job (Transfer
Queue, Rust backend, absent from this repository).  A job already in a
terminal state is left unchanged — the `CancellationError` case is a no-op
success; a `Queued` job is cancelled without ever invoking the transfer
tool; a `Transferring` job is interrupted and ends `Cancelled`. -/
def cancelJob (j : TransferJob) : TransferJob :=
  if j.status.isTerminal then j else { j with status := .cancelled }

/-- `cancel(jobId)` applied across the job list. -/
def cancelUpdate (id : String) (j : TransferJob) : TransferJob :=
  if j.id == id then cancelJob j else j

def cancelAll (jobs : List TransferJob) (id : String) : List TransferJob :=
  jobs.map (cancelUpdate id)

/-- Modelled from the spec: `cancelTransfer` always returns success —
cancelling an already-terminal job is treated as a no-op success, never a
hard error. -/
def cancelTransfer (jobs : List TransferJob) (id : String) :
    Except CoreError (List TransferJob) :=
  .ok (cancelAll jobs id)

/-- The state the Transfer Queue exposes to `get_transfers`. -/
structure QueueState where
  active : List TransferJob
  history : List TransferJob
deriving DecidableEq, Repr

/-- Modelled from the spec: `listTransfers()` returns the pair
(active jobs, history). -/
def getTransfers (st : QueueState) : List TransferJob × List TransferJob :=
  (st.active, st.history)

/-- Modelled from the spec: a job entering a terminal state is prepended to
the bounded history (most-recent-first) and the history is truncated to a
fixed capacity, evicting the oldest entries first. -/
def pushHistory (cap : Nat) (history : List TransferJob) (j : TransferJob) :
    List TransferJob :=
  (j :: history).take cap

/-- Modelled from the spec: the Progress Reporter applies a byte-count
update to a job; once the total size is known (`size_bytes > 0`) the
transferred count never exceeds it; with the size unknown the raw count is
recorded and progress is only ever reported in binary form. -/
def reportProgress (j : TransferJob) (n : Nat) : TransferJob :=
  if j.size_bytes > 0 then { j with transferred_bytes := min n j.size_bytes }
  else { j with transferred_bytes := n }

end Core

namespace TransferPage

/-- `history.slice(0, 20)` in the history panel of `TransferPage`. -/
def renderedHistory (history : List TransferItem) : List TransferItem :=
  history.take 20

/-- The progress-bar width percentage of an active transfer row:
`t.size_bytes > 0 ? (t.transferred_bytes / t.size_bytes) * 100 : 0`. -/
def progressWidthPct (t : TransferItem) : Rat :=
  if t.size_bytes > 0 then
    ((t.transferred_bytes : Rat) / (t.size_bytes : Rat)) * 100
  else 0

end TransferPage

/-! Helper lemmas for the cancel model. -/

lemma cancelJob_id (j : Core.TransferJob) : (Core.cancelJob j).id = j.id := by
  rw [Core.cancelJob]
  split <;> rfl

lemma cancelJob_idem (j : Core.TransferJob) :
    Core.cancelJob (Core.cancelJob j) = Core.cancelJob j := by
  by_cases h : j.status.isTerminal = true
  · simp only [Core.cancelJob, if_pos h]
  · simp only [Core.cancelJob, if_neg h]
    simp [TransferStatus.isTerminal]

lemma cancelUpdate_idem (id : String) (j : Core.TransferJob) :
    Core.cancelUpdate id (Core.cancelUpdate id j) = Core.cancelUpdate id j := by
  by_cases h : (j.id == id) = true
  · simp [Core.cancelUpdate, h, cancelJob_id, cancelJob_idem]
  · simp [Core.cancelUpdate, h]

lemma cancelAll_idem (jobs : List Core.TransferJob) (id : String) :
    Core.cancelAll (Core.cancelAll jobs id) id = Core.cancelAll jobs id := by
  induction jobs with
  | nil => rfl
  | cons j js ih =>
      simp only [Core.cancelAll, List.map_cons] at ih ⊢
      rw [cancelUpdate_idem, ih]

/-- Concrete data for the witnesses. -/
def sampleKey : Core.SessionKey := ⟨"DEV1", .mirror⟩

def sampleSession : Core.Session := ⟨sampleKey, 42, .running⟩

def sampleMirror : MirrorSession := ⟨"DEV1", 42, "2026-10-11T00:00:00Z"⟩

def sampleDevice : Device :=
  ⟨"DEV1", .ready, some "Pixel 8", some "Google", some "14"⟩

def sampleCancelledJob : Core.TransferJob :=
  ⟨"t1", .push, "DEV1", "/tmp/a.jpg", "/sdcard/Download/a.jpg", 100, 40,
   .cancelled, none⟩

def sampleJobA : Core.TransferJob :=
  ⟨"a", .push, "DEV1", "/a", "/d/a", 10, 10, .complete, none⟩

def sampleJobB : Core.TransferJob :=
  ⟨"b", .push, "DEV1", "/b", "/d/b", 10, 0, .failed, some "io error"⟩

def sampleJobC : Core.TransferJob :=
  ⟨"c", .push, "DEV1", "/c", "/d/c", 10, 0, .queued, none⟩

def sampleQueue : Core.QueueState :=
  ⟨[sampleJobC], [sampleJobA, sampleJobB]⟩

def sampleRunningJob : Core.TransferJob :=
  ⟨"t1", .push, "DEV1", "/a", "/sdcard/a", 100, 40, .transferring, none⟩

def sampleActiveItem : TransferItem :=
  ⟨"t1", "a.jpg", "/a", "/sdcard/a", 100, 40, .transferring, none, "t0"⟩

def sampleUnknownItem : TransferItem :=
  ⟨"t2", "b.jpg", "/b", "/sdcard/b", 0, 7, .transferring, none, "t0"⟩

def sampleUnknownItem2 : TransferItem :=
  ⟨"t3", "c.jpg", "/c", "/sdcard/c", 0, 999, .transferring, none, "t0"⟩

/-- Claim C1: after a first successful `start` for a device/mode key, a
second `start` for the same key fails with `DuplicateSessionError`, exactly
one `Running` session exists for the key, and the first session is
unchanged; at the UI level, the device-has-active-session check is exactly
"some session of the current mode carries this serial", and such a device is
rendered with the `Active` badge instead of a start button. -/
theorem duplicate_start_rejected (r r1 : Core.Registry) (k : Core.SessionKey)
    (pid pid2 : Nat) (s : Core.Session) (spawnOk : Bool)
    (mode : MirrorMode) (ms cs : List MirrorSession) (d : Device)
    (isStarting : Bool)
    (h : Core.startSession r k pid true = .ok (s, r1))
    (hui : MirrorPage.isDeviceMirroring mode ms cs d.serial = true) :
    Core.startSession r1 k pid2 spawnOk = .error .duplicateSession ∧
    Core.countKey r1 k = 1 ∧
    Core.findSession r1 k = some s ∧
    s.state = .running ∧
    (MirrorPage.isDeviceMirroring mode ms cs d.serial = true ↔
      ∃ t ∈ (match mode with
             | .screen => ms
             | .camera => cs), t.device_serial = d.serial) ∧
    MirrorPage.deviceControl mode ms cs d isStarting = .activeBadge := by
  rcases hf : Core.findSession r k with _ | t
  case some =>
    simp only [Core.startSession, hf] at h
    exact Except.noConfusion h
  case none =>
    simp only [Core.startSession, hf, if_true, Except.ok.injEq,
      Prod.mk.injEq] at h
    obtain ⟨hs, hr1⟩ := h
    subst hs
    subst hr1
    rw [Core.findSession] at hf
    have hfind : Core.findSession (Core.Session.mk k pid .running :: r) k =
        some (Core.Session.mk k pid .running) := by
      rw [Core.findSession, List.find?_cons_of_pos _ (by simp)]
    refine ⟨?_, ?_, hfind, rfl, ?_, ?_⟩
    · simp only [Core.startSession, hfind]
    · have hfil : r.filter (fun s => s.key == k) = [] :=
        List.filter_eq_nil_iff.mpr (List.find?_eq_none.mp hf)
      simp [Core.countKey, List.filter_cons, hfil]
    · cases mode <;>
        simp [MirrorPage.isDeviceMirroring, List.any_eq_true]
    · rw [MirrorPage.deviceControl, if_pos hui]

/-- Witness for C1: a fresh registry, one successful start for
`("DEV1", mirror)`, then a rejected duplicate; the device with the active
screen session is rendered with the `Active` badge. -/
theorem duplicate_start_rejected_witness :
    Core.startSession [] sampleKey 42 true =
      .ok (sampleSession, [sampleSession]) ∧
    MirrorPage.isDeviceMirroring .screen [sampleMirror] []
      sampleDevice.serial = true ∧
    (Core.startSession [sampleSession] sampleKey 7 true =
       .error .duplicateSession ∧
     Core.countKey [sampleSession] sampleKey = 1 ∧
     Core.findSession [sampleSession] sampleKey = some sampleSession ∧
     sampleSession.state = .running ∧
     (MirrorPage.isDeviceMirroring .screen [sampleMirror] []
        sampleDevice.serial = true ↔
       ∃ t ∈ [sampleMirror], t.device_serial = sampleDevice.serial) ∧
     MirrorPage.deviceControl .screen [sampleMirror] [] sampleDevice false =
       .activeBadge) :=
  ⟨rfl, by decide,
   duplicate_start_rejected [] [sampleSession] sampleKey 42 7 sampleSession
     true .screen [sampleMirror] [] sampleDevice false rfl (by decide)⟩

/-- Claim C2: cancel is idempotent.  A job already in a terminal state is
left unchanged by `cancel`; `cancelTransfer` returns success (never an
error); and cancelling the same id twice leaves the same job list as
cancelling it once. -/
theorem cancel_is_idempotent (j : Core.TransferJob)
    (jobs : List Core.TransferJob) (id : String)
    (h : j.status.isTerminal = true) :
    Core.cancelJob j = j ∧
    Core.cancelTransfer jobs id = .ok (Core.cancelAll jobs id) ∧
    Core.cancelAll (Core.cancelAll jobs id) id = Core.cancelAll jobs id :=
  ⟨by rw [Core.cancelJob, if_pos h], rfl, cancelAll_idem jobs id⟩

/-- Witness for C2 at a concrete already-cancelled job. -/
theorem cancel_is_idempotent_witness :
    sampleCancelledJob.status.isTerminal = true ∧
    (Core.cancelJob sampleCancelledJob = sampleCancelledJob ∧
     Core.cancelTransfer [sampleCancelledJob] "t1" =
       .ok (Core.cancelAll [sampleCancelledJob] "t1") ∧
     Core.cancelAll (Core.cancelAll [sampleCancelledJob] "t1") "t1" =
       Core.cancelAll [sampleCancelledJob] "t1") :=
  ⟨rfl, cancel_is_idempotent sampleCancelledJob [sampleCancelledJob] "t1" rfl⟩

/-- Claim C3: listing transfers returns the pair (active, history); the
history is bounded by its capacity, most-recent-first (the new terminal job
is at the head), and when full the oldest entry is the one evicted; the UI
renders at most the first 20 entries of whatever history list it
receives. -/
theorem history_bounded_recent_first (st : Core.QueueState) (cap : Nat)
    (history : List Core.TransferJob) (j : Core.TransferJob)
    (hist : List TransferItem)
    (hcap : 1 ≤ cap) (hfull : history.length = cap) :
    Core.getTransfers st = (st.active, st.history) ∧
    (Core.pushHistory cap history j).length ≤ cap ∧
    (Core.pushHistory cap history j).head? = some j ∧
    Core.pushHistory cap history j = j :: history.dropLast ∧
    TransferPage.renderedHistory hist = hist.take 20 ∧
    (TransferPage.renderedHistory hist).length ≤ 20 := by
  obtain ⟨c, rfl⟩ : ∃ c, cap = c + 1 := ⟨cap - 1, by omega⟩
  refine ⟨rfl, ?_, ?_, ?_, rfl, ?_⟩
  · rw [Core.pushHistory]
    simp [List.length_take]
  · rw [Core.pushHistory, List.take_succ_cons]
    rfl
  · rw [Core.pushHistory, List.take_succ_cons]
    congr 1
    rw [List.dropLast_eq_take, hfull]
    simp
  · rw [TransferPage.renderedHistory]
    simp [List.length_take]

/-- Witness for C3 with capacity 2, a full history `[a, b]` and a newly
terminal job `c`: the pushed history is `[c, a]` — `b`, the oldest, is
evicted. -/
theorem history_bounded_recent_first_witness :
    1 ≤ 2 ∧ ([sampleJobA, sampleJobB] : List Core.TransferJob).length = 2 ∧
    (Core.getTransfers sampleQueue = (sampleQueue.active, sampleQueue.history) ∧
     (Core.pushHistory 2 [sampleJobA, sampleJobB] sampleJobC).length ≤ 2 ∧
     (Core.pushHistory 2 [sampleJobA, sampleJobB] sampleJobC).head? =
       some sampleJobC ∧
     Core.pushHistory 2 [sampleJobA, sampleJobB] sampleJobC =
       sampleJobC :: ([sampleJobA, sampleJobB] : List Core.TransferJob).dropLast ∧
     TransferPage.renderedHistory [] = ([] : List TransferItem).take 20 ∧
     (TransferPage.renderedHistory []).length ≤ 20) :=
  ⟨by decide, rfl,
   history_bounded_recent_first sampleQueue 2 [sampleJobA, sampleJobB]
     sampleJobC [] (by decide) rfl⟩

/-- Claim C4: once the total size is known (`size_bytes > 0`), transferred
bytes never exceed it after a progress update, and the displayed completion
percentage is exactly `transferred_bytes / size_bytes * 100`; when the size
is unknown the displayed fill is the constant 0 — independent of the bytes
actually moved — rather than a definite byte-derived percentage. -/
theorem progress_fraction (j : Core.TransferJob) (n : Nat)
    (t t1 t2 : TransferItem)
    (hk : 0 < j.size_bytes) (ht : 0 < t.size_bytes)
    (hu1 : t1.size_bytes = 0) (hu2 : t2.size_bytes = 0) :
    (Core.reportProgress j n).transferred_bytes ≤
      (Core.reportProgress j n).size_bytes ∧
    TransferPage.progressWidthPct t =
      ((t.transferred_bytes : Rat) / (t.size_bytes : Rat)) * 100 ∧
    TransferPage.progressWidthPct t1 = 0 ∧
    TransferPage.progressWidthPct t1 = TransferPage.progressWidthPct t2 := by
  refine ⟨?_, ?_, ?_, ?_⟩
  · rw [Core.reportProgress, if_pos hk]
    exact min_le_right n j.size_bytes
  · rw [TransferPage.progressWidthPct, if_pos ht]
  · rw [TransferPage.progressWidthPct, if_neg (by omega)]
  · rw [TransferPage.progressWidthPct, if_neg (by omega),
      TransferPage.progressWidthPct, if_neg (by omega)]

/-- Witness for C4 at a known-size job (100 bytes, update overshooting to
150) and two unknown-size items with different byte counts. -/
theorem progress_fraction_witness :
    0 < sampleRunningJob.size_bytes ∧ 0 < sampleActiveItem.size_bytes ∧
    sampleUnknownItem.size_bytes = 0 ∧ sampleUnknownItem2.size_bytes = 0 ∧
    ((Core.reportProgress sampleRunningJob 150).transferred_bytes ≤
       (Core.reportProgress sampleRunningJob 150).size_bytes ∧
     TransferPage.progressWidthPct sampleActiveItem =
       ((sampleActiveItem.transferred_bytes : Rat) /
         (sampleActiveItem.size_bytes : Rat)) * 100 ∧
     TransferPage.progressWidthPct sampleUnknownItem = 0 ∧
     TransferPage.progressWidthPct sampleUnknownItem =
       TransferPage.progressWidthPct sampleUnknownItem2) :=
  ⟨by decide, by decide, rfl, rfl,
   progress_fraction sampleRunningJob 150 sampleActiveItem sampleUnknownItem
     sampleUnknownItem2 (by decide) (by decide) rfl rfl⟩

/-- Witness for C5 at a concrete AppError-shaped object. -/
theorem parseError_maps_errors_witness :
    getField [("type", JSValue.vStr "SpawnError"),
              ("message", JSValue.vStr "adb not found")] "message"
      = some (.vStr "adb not found") ∧
    (parseError JSValue.vNull = .vStr "Unknown error" ∧
     parseError JSValue.vUndefined = .vStr "Unknown error" ∧
     parseError (JSValue.vObj [("type", JSValue.vStr "SpawnError"),
                               ("message", JSValue.vStr "adb not found")] false)
       = .vStr "adb not found" ∧
     (∀ s : String, parseError (.vStr s) = .vStr s) ∧
     ∃ out : JSValue, parseError JSValue.vNull = out) :=
  ⟨rfl,
   parseError_maps_errors JSValue.vNull
     [("type", JSValue.vStr "SpawnError"), ("message", JSValue.vStr "adb not found")]
     false "adb not found" rfl⟩

end GesuBridge
